import Mathlib

/-!
Verification of the cudawrappers repository (nvrtc.hpp, nvml.hpp,
test_vector_add.cpp) against its natural-language specification.

The wrapper layer is embedded shallowly: vendor status codes are `Nat`
(success is `0`), fallible wrapper operations return `Except`, and the
opaque vendor libraries (NVRTC, NVML, the CUDA driver) are modelled as
explicit parameters recording what each native entry point would return.
Side effects of native calls (initialisations, allocations, lookups) are
recorded in explicit trace values so that resource-balance claims can be
stated.
-/

set_option autoImplicit false
set_option linter.unusedVariables false

namespace CudaWrappers

/-- NVRTC_SUCCESS, the success member of nvrtcResult. -/
def NVRTC_SUCCESS : Nat := 0

/-- NVML_SUCCESS, the success member of nvmlReturn_t. -/
def NVML_SUCCESS : Nat := 0

namespace nvrtc

/-- nvrtc::Error (src/include/nvrtc.hpp): an exception carrying the
nvrtcResult passed to its constructor. -/
structure Error where
  _result : Nat
deriving Repr, DecidableEq

/-- The conversion operator `operator nvrtcResult()` of nvrtc::Error:
returns the stored `_result`. -/
def Error.toNvrtcResult (e : Error) : Nat := e._result

/-- Modelled from the spec: the out-of-line body of `nvrtc::Error::what()`
is declared in src/include/nvrtc.hpp but defined in a translation unit not
under src/. Per the spec it exposes a human-readable message obtained from
the vendor's own string-lookup function (nvrtcGetErrorString) applied to
the stored code; the lookup function is passed as a parameter since the
vendor library is opaque. -/
def Error.what (nvrtcGetErrorString : Nat → String) (e : Error) : String :=
  nvrtcGetErrorString e._result

/-- checkNvrtcCall (src/include/nvrtc.hpp): `if (result != NVRTC_SUCCESS)
throw Error(result);`. -/
def checkNvrtcCall (result : Nat) : Except Error Unit :=
  if result ≠ NVRTC_SUCCESS then .error ⟨result⟩ else .ok ()

end nvrtc

namespace nvml

/-- nvml::Error (src/include/cudawrappers/nvml.hpp): an exception carrying
the nvmlReturn_t passed to its constructor. -/
structure Error where
  _result : Nat
deriving Repr, DecidableEq

/-- The conversion operator `operator nvmlReturn_t()` of nvml::Error:
returns the stored `_result`. -/
def Error.toNvmlReturn (e : Error) : Nat := e._result

/-- nvml::Error::what() (src/include/cudawrappers/nvml.hpp): returns
`nvmlErrorString(_result)`; the vendor lookup function is a parameter
since the NVML library is opaque. -/
def Error.what (nvmlErrorString : Nat → String) (e : Error) : String :=
  nvmlErrorString e._result

/-- checkNvmlCall (src/include/cudawrappers/nvml.hpp):
`if (result != NVML_SUCCESS) throw Error(result);`. -/
def checkNvmlCall (result : Nat) : Except Error Unit :=
  if result ≠ NVML_SUCCESS then .error ⟨result⟩ else .ok ()

/-- Model of the opaque NVML library: the status (and handle) each native
entry point used by nvml.hpp would report. -/
structure Native where
  initResult : Nat
  shutdownResult : Nat
  handleByIndexResult : Nat → Nat
  handleByIndexHandle : Nat → Nat
  handleByUuidResult : String → Nat
  handleByUuidHandle : String → Nat

/-- Trace of the resource-relevant native calls made while running nvml
wrapper code: how many nvmlInit calls succeeded, how many nvmlShutdown
calls were made, and the statuses returned by nvmlDeviceGetHandleByUUID
calls (recorded because the code discards them). -/
structure Trace where
  initsOk : Nat
  shutdowns : Nat
  uuidLookupStatuses : List Nat
deriving Repr, DecidableEq

/-- nvml::Device::Device(int index): `checkNvmlCall(nvmlInit());
checkNvmlCall(nvmlDeviceGetHandleByIndex(index, &device_));`. The C++
constructor body stops at the first throw; the returned trace records the
native calls that actually ran. The result is the stored device handle. -/
def Device.ofIndexRun (n : Native) (index : Nat) :
    Except Error Nat × Trace :=
  match checkNvmlCall n.initResult with
  | .error e => (.error e, ⟨0, 0, []⟩)
  | .ok () =>
    match checkNvmlCall (n.handleByIndexResult index) with
    | .error e => (.error e, ⟨1, 0, []⟩)
    | .ok () => (.ok (n.handleByIndexHandle index), ⟨1, 0, []⟩)

/-- nvml::Device::Device(cu::Device&): `checkNvmlCall(nvmlInit());
const std::string uuid = device.getUuid();
nvmlDeviceGetHandleByUUID(uuid.c_str(), &device_);` — note that the
status of nvmlDeviceGetHandleByUUID is NOT passed through checkNvmlCall
in the source; it is evaluated and discarded, which the trace records.
The uuid obtained from cu::Device::getUuid() is a parameter. -/
def Device.ofCuDeviceRun (n : Native) (uuid : String) :
    Except Error Nat × Trace :=
  match checkNvmlCall n.initResult with
  | .error e => (.error e, ⟨0, 0, []⟩)
  | .ok () =>
    (.ok (n.handleByUuidHandle uuid), ⟨1, 0, [n.handleByUuidResult uuid]⟩)

/-- nvml::Device::~Device(): `checkNvmlCall(nvmlShutdown());`. -/
def Device.destroyRun (n : Native) (t : Trace) : Except Error Unit × Trace :=
  (checkNvmlCall n.shutdownResult,
   ⟨t.initsOk, t.shutdowns + 1, t.uuidLookupStatuses⟩)

/-- Full C++ scope semantics of `nvml::Device d(index);` leaving scope: if
the constructor throws, the object was never constructed and the
destructor does not run; otherwise the destructor runs when the scope
exits. -/
def Device.scopedOfIndex (n : Native) (index : Nat) :
    Except Error Unit × Trace :=
  match Device.ofIndexRun n index with
  | (.error e, t) => (.error e, t)
  | (.ok _, t) => Device.destroyRun n t

end nvml

namespace nvrtc

/-- Model of the opaque NVRTC library: the status each native entry point
would report, and the artifacts (log, PTX, CUBIN) a program built from a
given source would hold after a compile attempt with given options. -/
structure Model where
  createStatus : String → String → Nat
  compileStatus : String → List String → Nat
  logAfter : String → List String → String
  ptxAfter : String → List String → String
  cubinAfter : String → List String → List Nat
  destroyStatus : Nat

/-- The state of an nvrtcProgram handle owned by an nvrtc::Program:
the source text, the logical name and the header count it was created
with, and whether a compile attempt (with which option list) happened. -/
structure Prog where
  src : String
  name : String
  numHeaders : Nat
  compiledWith : Option (List String)
deriving Repr, DecidableEq

/-- nvrtc::Program::Program(src, name, headers, includeNames)
(src/include/nvrtc.hpp): builds c_headers and c_includeNames and calls
`nvrtcCreateProgram(&program, src.c_str(), name.c_str(),
c_headers.size(), c_headers.data(), c_includeNames.data())` through
checkNvrtcCall; the header count passed is c_headers.size(). -/
def Program.create (m : Model) (src name : String)
    (headers includeNames : List String) : Except Error Prog :=
  match checkNvrtcCall (m.createStatus src name) with
  | .error e => .error e
  | .ok () => .ok ⟨src, name, headers.length, none⟩

/-- The source text read by `std::ifstream ifs(filename); std::string
source(std::istreambuf_iterator<char>{ifs}, {});`: a stream that failed
to open yields no characters, so a missing or unreadable file reads as
the empty string. The filesystem is a partial map from names to
contents; `none` is a missing or unreadable file. -/
def readWholeFile (fs : String → Option String) (filename : String) : String :=
  (fs filename).getD ""

/-- nvrtc::Program::Program(const std::string &filename)
(src/include/nvrtc.hpp): reads the file as above — with no check of the
stream state — and calls `nvrtcCreateProgram(&program, source.c_str(),
filename.c_str(), 0, nullptr, nullptr)` through checkNvrtcCall. -/
def Program.fromFile (m : Model) (fs : String → Option String)
    (filename : String) : Except Error Prog :=
  let source := readWholeFile fs filename
  match checkNvrtcCall (m.createStatus source filename) with
  | .error e => .error e
  | .ok () => .ok ⟨source, filename, 0, none⟩

/-- nvrtc::Program::compile(options) (src/include/nvrtc.hpp): calls
`nvrtcCompileProgram(program, c_options.size(), c_options.data())`
through checkNvrtcCall. The native call performs the compilation attempt
before its status is inspected, so the program handle is in the
compiled-with-options state in both outcomes; the first component is
what the wrapper returns (throwing on non-success). -/
def Program.compile (m : Model) (p : Prog) (options : List String) :
    Except Error Unit × Prog :=
  (checkNvrtcCall (m.compileStatus p.src options),
   ⟨p.src, p.name, p.numHeaders, some options⟩)

/-- The diagnostic log the native library holds for a program handle:
empty before any compile attempt, the log of the attempt afterwards. -/
def nativeLog (m : Model) (p : Prog) : String :=
  match p.compiledWith with
  | none => ""
  | some opts => m.logAfter p.src opts

/-- The PTX the native library holds for a program handle. -/
def nativePtx (m : Model) (p : Prog) : String :=
  match p.compiledWith with
  | none => ""
  | some opts => m.ptxAfter p.src opts

/-- The CUBIN bytes the native library holds for a program handle. -/
def nativeCubin (m : Model) (p : Prog) : List Nat :=
  match p.compiledWith with
  | none => []
  | some opts => m.cubinAfter p.src opts

/-- std::string::resize(n): truncate to n characters, or extend with null
characters up to n. -/
def stringResize (s : String) (n : Nat) : String :=
  ⟨s.data.take n ++ List.replicate (n - s.data.length) (Char.ofNat 0)⟩

/-- std::vector::resize(n): truncate to n elements, or extend with
value-initialised elements up to n. -/
def vectorResize (v : List Nat) (n : Nat) : List Nat :=
  v.take n ++ List.replicate (n - v.length) 0

/-- A native fetch call (nvrtcGetPTX, nvrtcGetCUBIN, nvrtcGetProgramLog)
writing an artifact into a caller-supplied buffer: the buffer keeps its
length and receives the artifact's bytes. -/
def fetchIntoString (content : String) (buf : String) : String :=
  stringResize content buf.data.length

/-- As `fetchIntoString`, for a byte vector. -/
def fetchIntoVector (content : List Nat) (buf : List Nat) : List Nat :=
  vectorResize content buf.length

/-- nvrtcGetPTXSize: the size the native library reports for the PTX. -/
def getPTXSize (m : Model) (p : Prog) : Nat := (nativePtx m p).data.length

/-- nvrtcGetCUBINSize: the size reported for the CUBIN. -/
def getCUBINSize (m : Model) (p : Prog) : Nat := (nativeCubin m p).length

/-- nvrtcGetProgramLogSize: the size reported for the log. -/
def getLogSize (m : Model) (p : Prog) : Nat := (nativeLog m p).data.length

/-- nvrtc::Program::getPTX() (src/include/nvrtc.hpp): query the size
with nvrtcGetPTXSize, resize an empty string to that size, fill it with
nvrtcGetPTX; size and fetch calls on a live handle report success. -/
def Program.getPTX (m : Model) (p : Prog) : String :=
  let size := getPTXSize m p
  let ptx := stringResize "" size
  fetchIntoString (nativePtx m p) ptx

/-- nvrtc::Program::getCUBIN() (src/include/nvrtc.hpp): query the size
with nvrtcGetCUBINSize, resize an empty vector to that size, fill it
with nvrtcGetCUBIN. -/
def Program.getCUBIN (m : Model) (p : Prog) : List Nat :=
  let size := getCUBINSize m p
  let cubin := vectorResize [] size
  fetchIntoVector (nativeCubin m p) cubin

/-- nvrtc::Program::getLog() (src/include/nvrtc.hpp): query the size with
nvrtcGetProgramLogSize, resize an empty string to that size, fill it with
nvrtcGetProgramLog. -/
def Program.getLog (m : Model) (p : Prog) : String :=
  let size := getLogSize m p
  let log := stringResize "" size
  fetchIntoString (nativeLog m p) log

/-- Trace of acquire and release calls for nvrtc::Program: how many
nvrtcCreateProgram calls succeeded and how many nvrtcDestroyProgram
calls were made. -/
structure ProgTrace where
  createsOk : Nat
  destroys : Nat
deriving Repr, DecidableEq

/-- nvrtc::Program::Program(src, name, headers, includeNames) with its
acquire trace: the create call either fails (acquiring nothing) or
succeeds. -/
def Program.createRun (m : Model) (src name : String)
    (headers includeNames : List String) : Except Error Prog × ProgTrace :=
  match checkNvrtcCall (m.createStatus src name) with
  | .error e => (.error e, ⟨0, 0⟩)
  | .ok () => (.ok ⟨src, name, headers.length, none⟩, ⟨1, 0⟩)

/-- Full C++ scope semantics of an nvrtc::Program local: if the
constructor throws, the object was never constructed and ~Program (which
calls nvrtcDestroyProgram through checkNvrtcCall) does not run;
otherwise the destructor runs when the scope exits. -/
def Program.scopedCreate (m : Model) (src name : String)
    (headers includeNames : List String) : Except Error Unit × ProgTrace :=
  match Program.createRun m src name headers includeNames with
  | (.error e, t) => (.error e, t)
  | (.ok _, t) =>
    (checkNvrtcCall m.destroyStatus, ⟨t.createsOk, t.destroys + 1⟩)

end nvrtc

namespace cu

/-- The CUmemorytype tags exercised by the tests. -/
inductive CUmemorytype
  | host
  | device
  | array
  | unified
deriving Repr, DecidableEq

/-- CU_MEM_ATTACH_GLOBAL flag value of the CUDA driver API. -/
def CU_MEM_ATTACH_GLOBAL : Nat := 1

/-- CU_MEM_ATTACH_HOST flag value of the CUDA driver API. -/
def CU_MEM_ATTACH_HOST : Nat := 2

/-- The native allocation calls the cu::DeviceMemory constructor can
attempt. -/
inductive AllocCall
  | cuMemAlloc (bytesize : Nat)
  | cuMemAllocManaged (bytesize flags : Nat)
deriving Repr, DecidableEq

/-- Modelled from the spec: the cu::DeviceMemory constructor — cu.hpp is
repo code not under src/. Per the spec (device memory typing policy): it
accepts only the device-resident or unified/managed memory-type tags; a
disallowed tag (array-backed, host-backed) raises an error before any
native allocation call is attempted; flag arguments are accepted only
in combination with the unified/managed type, so the device-resident
type with any non-zero flag raises (also before allocating) while with
zero flags it allocates with cuMemAlloc, and the unified/managed type
allocates with cuMemAllocManaged passing the flags. The second component
lists the native allocation calls attempted. -/
def DeviceMemory.construct (bytesize : Nat) (memType : CUmemorytype)
    (flags : Nat) : Except String Unit × List AllocCall :=
  match memType with
  | .device =>
    if flags ≠ 0 then
      (.error "flags can only be used with unified memory", [])
    else
      (.ok (), [.cuMemAlloc bytesize])
  | .unified => (.ok (), [.cuMemAllocManaged bytesize flags])
  | _ => (.error "Invalid memory type", [])

end cu

/-! ## The vector-add test scenario (src/tests/test_vector_add.cpp)

Buffers are modelled as total maps from element index to value; values
are rationals standing for the float contents (every value the test
produces is an integer of small magnitude, exactly representable in
binary32, and the device and host compute the same sums, so exact
arithmetic is faithful). -/

/-- N = 1024, the element count of the test. -/
def testN : Nat := 1024

/-- The fixed vector-addition kernel source string of TEST_CASE
"Vector add". -/
def vectorAddKernelSource : String :=
  "\n    extern \"C\" __global__ void vector_add(float *c, float *a, float *b, int n) \x7b\n      int i = blockIdx.x * blockDim.x + threadIdx.x;\n      if (i < n) \x7b\n        c[i] = a[i] + b[i];\n      \x7d\n    \x7d\n  "

/-- initialize_arrays (src/tests/test_vector_add.cpp): a[i] = 1.0 + i. -/
def initArrayA (i : Nat) : ℚ := 1 + (i : ℚ)

/-- initialize_arrays: b[i] = 2.0 - (N - i). -/
def initArrayB (N : Nat) (i : Nat) : ℚ := 2 - ((N : ℚ) - (i : ℚ))

/-- initialize_arrays: the reference result r[i] = a[i] + b[i]. -/
def referenceC (N : Nat) (i : Nat) : ℚ := initArrayA i + initArrayB N i

/-- Modelled from the spec: the semantics of the function "vector_add"
looked up from the module built out of the PTX of the test kernel,
launched on the stream with grid (1,1,1) and block (blockDimX,1,1) —
the thread with global index i (0 ≤ i < blockDimX) runs the kernel body
`int i = blockIdx.x * blockDimX + threadIdx.x; if (i < n) c[i] = a[i] +
b[i];`. The GPU itself is opaque native hardware outside the repository;
this is the launch semantics the spec's end-to-end scenario relies on. -/
def launchVectorAdd (blockDimX n : Nat) (a b c : Nat → ℚ) : Nat → ℚ :=
  fun i => if i < blockDimX ∧ i < n then a i + b i else c i

/-- Modelled from the spec: cu::Stream::memcpyHtoDAsync and
memcpyDtoHAsync copy the bytes unchanged; the stream runs enqueued
operations in order and synchronize is the blocking wait, so by the time
the test reads the destination the copy has completed. -/
def memcpyAsync (src : Nat → ℚ) : Nat → ℚ := src

/-- Modelled from the spec: cu::Stream::memPrefetchAsync migrates a
managed buffer between device and host without changing its contents. -/
def memPrefetchAsync (buf : Nat → ℚ) : Nat → ℚ := buf

/-- The compile stage shared by all sections of TEST_CASE "Vector add":
construct nvrtc::Program from the kernel source with logical name
"vector_add_kernel.cu", compile with an empty option list (the catch
block only prints the log and rethrows, so an error still propagates),
then retrieve the PTX. -/
def compileStage (m : nvrtc.Model) : Except nvrtc.Error (nvrtc.Prog × String) :=
  match nvrtc.Program.create m vectorAddKernelSource "vector_add_kernel.cu" [] [] with
  | .error e => .error e
  | .ok p =>
    match nvrtc.Program.compile m p [] with
    | (.error e, _) => .error e
    | (.ok (), p') => .ok (p', nvrtc.Program.getPTX m p')

/-- SECTION "Run kernel": host arrays are initialised, a and b are copied
to device buffers, the kernel is launched over grid (1,1,1) and block
(N,1,1), c is copied back and the stream is synchronized. `d_c0` is the
arbitrary initial content of the freshly allocated device buffer d_c
(every index the test checks is overwritten by the kernel). Returns the
final host array h_c. -/
def runKernelSection (d_c0 : Nat → ℚ) : Nat → ℚ :=
  let d_a := memcpyAsync initArrayA
  let d_b := memcpyAsync (initArrayB testN)
  let d_c := launchVectorAdd testN testN d_a d_b d_c0
  memcpyAsync d_c

/-- SECTION "Run kernel with managed memory": unified buffers allocated
with CU_MEM_ATTACH_HOST are initialised directly through their host
mapping, the kernel is launched with the same configuration, and c is
read back through the host mapping after synchronize. -/
def managedSection (d_c0 : Nat → ℚ) : Nat → ℚ :=
  launchVectorAdd testN testN initArrayA (initArrayB testN) d_c0

/-- SECTION "Run kernel with managed memory and prefetch": as
`managedSection` but with CU_MEM_ATTACH_GLOBAL buffers, prefetches of a
and b to the device before the launch and a prefetch of c back to the
CPU before synchronize. -/
def managedPrefetchSection (d_c0 : Nat → ℚ) : Nat → ℚ :=
  memPrefetchAsync
    (launchVectorAdd testN testN (memPrefetchAsync initArrayA)
      (memPrefetchAsync (initArrayB testN)) d_c0)

/-- The end-to-end "Run kernel" scenario: the compile stage (program
creation, compilation with empty options, PTX retrieval), the three
device-buffer allocations `cu::DeviceMemory d(bytesize)` — the one-
argument constructor uses the device-resident type and zero flags; all
three allocation calls are identical, and the first one is inspected on
behalf of all three — then the copy/launch/copy/synchronize sequence.
The first component is the first error raised, if any; the second is the
final host output array. -/
def vectorAddScenario (m : nvrtc.Model) (d_c0 : Nat → ℚ) :
    Except (nvrtc.Error ⊕ String) Unit × (Nat → ℚ) :=
  match compileStage m with
  | .error e => (.error (.inl e), fun _ => 0)
  | .ok _ =>
    match cu.DeviceMemory.construct (testN * 4) .device 0 with
    | (.error s, _) => (.error (.inr s), fun _ => 0)
    | (.ok (), _) => (.ok (), runKernelSection d_c0)

/-! ## Concrete models used as witnesses and counterexamples -/

/-- An NVML model on which nvmlInit succeeds and nvmlDeviceGetHandleByUUID
reports status 999 while producing handle 7. -/
def uuidFailureNative : nvml.Native :=
  ⟨0, 0, fun _ => 0, fun _ => 0, fun _ => 999, fun _ => 7⟩

/-- An NVML model on which nvmlInit succeeds and
nvmlDeviceGetHandleByIndex reports status 7 (a non-success code). -/
def indexFailureNative : nvml.Native :=
  ⟨0, 0, fun _ => 7, fun _ => 11, fun _ => 0, fun _ => 0⟩

/-- An NVRTC model standing for a functioning toolchain: every native
call reports success. -/
def okModel : nvrtc.Model :=
  ⟨fun _ _ => 0, fun _ _ => 0, fun _ _ => "", fun _ _ => "", fun _ _ => [], 0⟩

/-- An NVRTC model on which compilation reports status 6
(NVRTC_ERROR_COMPILATION) and leaves a diagnostic log. -/
def failCompileModel : nvrtc.Model :=
  ⟨fun _ _ => 0, fun _ _ => 6, fun _ _ => "error: expected a declaration",
   fun _ _ => "", fun _ _ => [], 0⟩

/-! ## Helper lemmas on the size-then-fetch buffer pattern -/

namespace nvrtc

/-- Resizing a string yields a string of exactly the requested length. -/
theorem stringResize_data_length (s : String) (n : Nat) :
    (stringResize s n).data.length = n := by
  simp only [stringResize, List.length_append, List.length_take,
    List.length_replicate]
  omega

/-- Resizing a string to its own length leaves it unchanged. -/
theorem stringResize_data_self (s : String) :
    stringResize s s.data.length = s := by
  cases s with
  | mk data => simp [stringResize]

/-- Resizing a vector yields a vector of exactly the requested length. -/
theorem vectorResize_length (v : List Nat) (n : Nat) :
    (vectorResize v n).length = n := by
  simp only [vectorResize, List.length_append, List.length_take,
    List.length_replicate]
  omega

/-- Resizing a vector to its own length leaves it unchanged. -/
theorem vectorResize_self (v : List Nat) : vectorResize v v.length = v := by
  simp [vectorResize]

/-- getPTX returns exactly the PTX the native library holds. -/
theorem getPTX_eq_native (m : Model) (p : Prog) :
    Program.getPTX m p = nativePtx m p := by
  show fetchIntoString (nativePtx m p)
    (stringResize ⟨[]⟩ (nativePtx m p).data.length) = nativePtx m p
  rw [fetchIntoString, stringResize_data_length, stringResize_data_self]

/-- getCUBIN returns exactly the CUBIN the native library holds. -/
theorem getCUBIN_eq_native (m : Model) (p : Prog) :
    Program.getCUBIN m p = nativeCubin m p := by
  show fetchIntoVector (nativeCubin m p)
    (vectorResize [] (nativeCubin m p).length) = nativeCubin m p
  rw [fetchIntoVector, vectorResize_length, vectorResize_self]

/-- getLog returns exactly the log the native library holds. -/
theorem getLog_eq_native (m : Model) (p : Prog) :
    Program.getLog m p = nativeLog m p := by
  show fetchIntoString (nativeLog m p)
    (stringResize ⟨[]⟩ (nativeLog m p).data.length) = nativeLog m p
  rw [fetchIntoString, stringResize_data_length, stringResize_data_self]

end nvrtc

/-! ## The claims -/

/-- C1: for every status code passed to checkNvrtcCall and checkNvmlCall,
the success code returns normally with no effect, and every other code
raises an error object whose embedded code equals the input code exactly
(recoverable via the conversion operator) and whose message is the
vendor string-lookup function applied to that code. -/
theorem C1_check_functions (r : Nat)
    (nvrtcGetErrorString nvmlErrorString : Nat → String) :
    (r = NVRTC_SUCCESS →
      nvrtc.checkNvrtcCall r = .ok () ∧ nvml.checkNvmlCall r = .ok ()) ∧
    (r ≠ NVRTC_SUCCESS →
      nvrtc.checkNvrtcCall r = .error ⟨r⟩ ∧
      nvrtc.Error.toNvrtcResult ⟨r⟩ = r ∧
      nvrtc.Error.what nvrtcGetErrorString ⟨r⟩ = nvrtcGetErrorString r ∧
      nvml.checkNvmlCall r = .error ⟨r⟩ ∧
      nvml.Error.toNvmlReturn ⟨r⟩ = r ∧
      nvml.Error.what nvmlErrorString ⟨r⟩ = nvmlErrorString r) := by
  constructor
  · intro h
    simp [nvrtc.checkNvrtcCall, nvml.checkNvmlCall, NVRTC_SUCCESS,
      NVML_SUCCESS, h]
  · intro h
    simp only [NVRTC_SUCCESS] at h
    refine ⟨?_, rfl, rfl, ?_, rfl, rfl⟩ <;>
      simp [nvrtc.checkNvrtcCall, nvml.checkNvmlCall, NVRTC_SUCCESS,
        NVML_SUCCESS, h]

/-- Witness for C1 at concrete codes 5 (failure) and 0 (success). -/
theorem C1_check_functions_witness :
    nvrtc.checkNvrtcCall 5 = .error ⟨5⟩ ∧ nvml.checkNvmlCall 0 = .ok () := by
  have h1 := (C1_check_functions 5 (fun _ => "x") (fun _ => "x")).2 (by decide)
  have h2 := (C1_check_functions 0 (fun _ => "x") (fun _ => "x")).1 rfl
  exact ⟨h1.1, h2.2⟩

/-- C2 (code bug): on a model where nvmlInit succeeds and
nvmlDeviceGetHandleByUUID reports non-success status 999, the
Device(cu::Device&) constructor returns normally with the looked-up
handle and raises no error — the lookup's status is evaluated and
discarded because that call is not passed through checkNvmlCall in
src/include/cudawrappers/nvml.hpp, contradicting the claim that every
status-returning native call raises on non-success. -/
theorem C2_uuid_lookup_unchecked :
    nvml.Device.ofCuDeviceRun uuidFailureNative "GPU-00000000" =
      (.ok 7, ⟨1, 0, [999]⟩) := rfl

/-- Counterexample to C3 as stated: on a model where nvmlInit succeeds
and the handle lookup by index reports status 7, the scoped lifecycle of
nvml::Device(int) raises the lookup's error, yet the trace shows one
successful nvmlInit and zero nvmlShutdown calls — an acquired native
resource (the NVML initialisation) remains unreleased, because the
destructor of a partially constructed object does not run. -/
theorem C3_counterexample_init_unreleased :
    (nvml.Device.scopedOfIndex indexFailureNative 0).1 = .error ⟨7⟩ ∧
    (nvml.Device.scopedOfIndex indexFailureNative 0).2.initsOk = 1 ∧
    (nvml.Device.scopedOfIndex indexFailureNative 0).2.shutdowns = 0 :=
  ⟨rfl, rfl, rfl⟩

/-- C3 (amended): a construction-time failure raises immediately; a
failing sole acquire call (nvrtcCreateProgram for nvrtc::Program, or
nvmlInit for nvml::Device) leaves nothing acquired and nothing to
release; but for the telemetry Device constructor taking an index, if
the handle lookup fails after initialization succeeded, the constructor
raises with the lookup's code while the successful initialization
remains unreleased (no nvmlShutdown call runs). -/
theorem C3_ctor_failure_amended (n : nvml.Native) (index : Nat)
    (m : nvrtc.Model) (src name : String)
    (headers includeNames : List String) :
    (m.createStatus src name ≠ NVRTC_SUCCESS →
      nvrtc.Program.scopedCreate m src name headers includeNames =
        (.error ⟨m.createStatus src name⟩, ⟨0, 0⟩)) ∧
    (n.initResult ≠ NVML_SUCCESS →
      nvml.Device.scopedOfIndex n index = (.error ⟨n.initResult⟩, ⟨0, 0, []⟩)) ∧
    (n.initResult = NVML_SUCCESS → n.handleByIndexResult index ≠ NVML_SUCCESS →
      nvml.Device.scopedOfIndex n index =
        (.error ⟨n.handleByIndexResult index⟩, ⟨1, 0, []⟩)) := by
  refine ⟨fun h => ?_, fun h => ?_, fun h1 h2 => ?_⟩
  · simp only [NVRTC_SUCCESS] at h
    simp [nvrtc.Program.scopedCreate, nvrtc.Program.createRun,
      nvrtc.checkNvrtcCall, NVRTC_SUCCESS, h]
  · simp only [NVML_SUCCESS] at h
    simp [nvml.Device.scopedOfIndex, nvml.Device.ofIndexRun,
      nvml.checkNvmlCall, NVML_SUCCESS, h]
  · simp only [NVML_SUCCESS] at h1 h2
    simp [nvml.Device.scopedOfIndex, nvml.Device.ofIndexRun,
      nvml.Device.destroyRun, nvml.checkNvmlCall, NVML_SUCCESS, h1, h2]

/-- Witness for the amended C3 on a concrete model: init succeeds, the
index lookup reports 7, and the scoped lifecycle ends with the error and
an unbalanced trace. -/
theorem C3_ctor_failure_amended_witness :
    nvml.Device.scopedOfIndex indexFailureNative 3 =
      (.error ⟨7⟩, ⟨1, 0, []⟩) :=
  (C3_ctor_failure_amended indexFailureNative 3 okModel "s" "n" [] []).2.2
    rfl (by decide)

/-- C4: if the compile operation reports a non-success status, it raises
an error carrying exactly that status (recoverable via the conversion
operator), and the program object remains usable in the Compiled state:
the diagnostic log of the attempt is still retrievable through getLog
afterwards. -/
theorem C4_compile_failure_log_retrievable (m : nvrtc.Model)
    (p : nvrtc.Prog) (options : List String)
    (h : m.compileStatus p.src options ≠ NVRTC_SUCCESS) :
    (nvrtc.Program.compile m p options).1 =
      .error ⟨m.compileStatus p.src options⟩ ∧
    nvrtc.Error.toNvrtcResult ⟨m.compileStatus p.src options⟩ =
      m.compileStatus p.src options ∧
    ((nvrtc.Program.compile m p options).2).compiledWith = some options ∧
    nvrtc.Program.getLog m ((nvrtc.Program.compile m p options).2) =
      m.logAfter p.src options := by
  simp only [NVRTC_SUCCESS] at h
  refine ⟨?_, rfl, rfl, ?_⟩
  · simp [nvrtc.Program.compile, nvrtc.checkNvrtcCall, NVRTC_SUCCESS, h]
  · rw [nvrtc.getLog_eq_native]
    simp [nvrtc.nativeLog, nvrtc.Program.compile]

/-- Witness for C4 on a model whose compilation reports status 6 with a
diagnostic log. -/
theorem C4_compile_failure_log_retrievable_witness :
    (nvrtc.Program.compile failCompileModel ⟨"bad", "k.cu", 0, none⟩ []).1 =
      .error ⟨6⟩ ∧
    nvrtc.Program.getLog failCompileModel
      ((nvrtc.Program.compile failCompileModel ⟨"bad", "k.cu", 0, none⟩ []).2) =
      "error: expected a declaration" := by
  have h := C4_compile_failure_log_retrievable failCompileModel
    ⟨"bad", "k.cu", 0, none⟩ [] (by decide)
  exact ⟨h.1, h.2.2.2⟩

/-- C5: each of getPTX, getCUBIN and getLog follows the two-call
size-then-fetch pattern — the returned value is a buffer of exactly the
size reported by the first native call, filled by the second call with
the artifact the native library holds. -/
theorem C5_size_then_fetch (m : nvrtc.Model) (p : nvrtc.Prog) :
    (nvrtc.Program.getPTX m p).length = nvrtc.getPTXSize m p ∧
    nvrtc.Program.getPTX m p = nvrtc.nativePtx m p ∧
    (nvrtc.Program.getCUBIN m p).length = nvrtc.getCUBINSize m p ∧
    nvrtc.Program.getCUBIN m p = nvrtc.nativeCubin m p ∧
    (nvrtc.Program.getLog m p).length = nvrtc.getLogSize m p ∧
    nvrtc.Program.getLog m p = nvrtc.nativeLog m p := by
  refine ⟨?_, nvrtc.getPTX_eq_native m p, ?_, nvrtc.getCUBIN_eq_native m p,
    ?_, nvrtc.getLog_eq_native m p⟩
  · rw [nvrtc.getPTX_eq_native]; rfl
  · rw [nvrtc.getCUBIN_eq_native]; rfl
  · rw [nvrtc.getLog_eq_native]; rfl

/-- C6: constructing a device-memory buffer with a disallowed memory-type
tag (array-backed or host-backed) raises an error, and the trace of
attempted native allocation calls is empty — no allocation side effect
occurs. -/
theorem C6_invalid_memorytype_raises (bytesize flags : Nat) :
    cu.DeviceMemory.construct bytesize .array flags =
      (.error "Invalid memory type", []) ∧
    cu.DeviceMemory.construct bytesize .host flags =
      (.error "Invalid memory type", []) :=
  ⟨rfl, rfl⟩

/-- C7: flag arguments are accepted only with the unified/managed memory
type — the device-resident type with zero flags allocates and raises
nothing, the device-resident type with any non-zero flag raises before
allocating, and the unified/managed type with the host-attach or the
global-attach flag allocates and raises nothing. -/
theorem C7_flags_policy (bytesize flags : Nat) :
    cu.DeviceMemory.construct bytesize .device 0 =
      (.ok (), [.cuMemAlloc bytesize]) ∧
    (flags ≠ 0 →
      cu.DeviceMemory.construct bytesize .device flags =
        (.error "flags can only be used with unified memory", [])) ∧
    cu.DeviceMemory.construct bytesize .unified cu.CU_MEM_ATTACH_HOST =
      (.ok (), [.cuMemAllocManaged bytesize cu.CU_MEM_ATTACH_HOST]) ∧
    cu.DeviceMemory.construct bytesize .unified cu.CU_MEM_ATTACH_GLOBAL =
      (.ok (), [.cuMemAllocManaged bytesize cu.CU_MEM_ATTACH_GLOBAL]) := by
  refine ⟨rfl, fun h => ?_, rfl, rfl⟩
  simp [cu.DeviceMemory.construct, h]

/-- Witness for C7 at bytesize 4096 and the non-zero flag
CU_MEM_ATTACH_GLOBAL = 1. -/
theorem C7_flags_policy_witness :
    cu.DeviceMemory.construct 4096 .device 1 =
      (.error "flags can only be used with unified memory", []) :=
  (C7_flags_policy 4096 1).2.1 (by decide)

/-- C10: the file-based Program constructor does not report file-open
failure: for a missing or unreadable file the stream yields the empty
string, and the constructor behaves exactly as creating a program from
empty source with the filename as the logical name and zero headers;
when the native create call succeeds it returns that program and raises
nothing. -/
theorem C10_missing_file_not_reported (m : nvrtc.Model)
    (fs : String → Option String) (filename : String)
    (hmissing : fs filename = none) :
    nvrtc.Program.fromFile m fs filename =
      nvrtc.Program.create m "" filename [] [] ∧
    (m.createStatus "" filename = NVRTC_SUCCESS →
      nvrtc.Program.fromFile m fs filename = .ok ⟨"", filename, 0, none⟩) := by
  have hread : nvrtc.readWholeFile fs filename = "" := by
    simp [nvrtc.readWholeFile, hmissing]
  constructor
  · simp only [nvrtc.Program.fromFile, nvrtc.Program.create, hread,
      List.length_nil]
  · intro hc
    simp only [NVRTC_SUCCESS] at hc
    simp [nvrtc.Program.fromFile, hread, nvrtc.checkNvrtcCall,
      NVRTC_SUCCESS, hc]

/-- Witness for C10 on an empty filesystem and a successful native
create call. -/
theorem C10_missing_file_not_reported_witness :
    nvrtc.Program.fromFile okModel (fun _ => none) "missing.cu" =
      .ok ⟨"", "missing.cu", 0, none⟩ :=
  (C10_missing_file_not_reported okModel (fun _ => none) "missing.cu" rfl).2 rfl

/-- C8: on a toolchain model whose native create and compile calls on
the fixed vector-addition source succeed, the end-to-end scenario —
create, compile with empty options, retrieve PTX, allocate buffers,
copy, launch over N = 1024 elements, copy back, synchronize — raises
zero errors, and every output element equals the reference sum
a[i] + b[i] exactly, hence within the tolerance 1e-6. -/
theorem C8_end_to_end_vector_add (m : nvrtc.Model) (d_c0 : Nat → ℚ)
    (hcreate :
      m.createStatus vectorAddKernelSource "vector_add_kernel.cu" =
        NVRTC_SUCCESS)
    (hcompile : m.compileStatus vectorAddKernelSource [] = NVRTC_SUCCESS) :
    (vectorAddScenario m d_c0).1 = .ok () ∧
    ∀ i, i < testN →
      (vectorAddScenario m d_c0).2 i = referenceC testN i ∧
      |(vectorAddScenario m d_c0).2 i - referenceC testN i| ≤ 1 / 1000000 := by
  simp only [NVRTC_SUCCESS] at hcreate hcompile
  have hscen : vectorAddScenario m d_c0 = (.ok (), runKernelSection d_c0) := by
    simp [vectorAddScenario, compileStage, nvrtc.Program.create,
      nvrtc.Program.compile, nvrtc.checkNvrtcCall, NVRTC_SUCCESS,
      hcreate, hcompile, cu.DeviceMemory.construct]
  rw [hscen]
  refine ⟨rfl, fun i hi => ?_⟩
  have hval : runKernelSection d_c0 i = referenceC testN i := by
    simp [runKernelSection, memcpyAsync, launchVectorAdd, referenceC, hi]
  refine ⟨hval, ?_⟩
  show |runKernelSection d_c0 i - referenceC testN i| ≤ 1 / 1000000
  rw [hval]
  simp

/-- Witness for C8 on the all-success toolchain model at index 5. -/
theorem C8_end_to_end_vector_add_witness :
    (vectorAddScenario okModel (fun _ => 0)).1 = .ok () ∧
    (vectorAddScenario okModel (fun _ => 0)).2 5 = referenceC testN 5 := by
  have h := C8_end_to_end_vector_add okModel (fun _ => 0) rfl rfl
  exact ⟨h.1, (h.2 5 (by decide)).1⟩

/-- C9: for every checked index, the managed-memory section
(host-attached unified buffers) and the managed-memory-with-prefetch
section (global-attached unified buffers with prefetches before the
launch and after completion) produce exactly the output the plain
device-buffer section produces, whatever the initial contents of the
freshly allocated output buffers. -/
theorem C9_managed_equals_plain (d_c0 d_c1 d_c2 : Nat → ℚ) :
    ∀ i, i < testN →
      managedSection d_c0 i = runKernelSection d_c2 i ∧
      managedPrefetchSection d_c1 i = runKernelSection d_c2 i := by
  intro i hi
  constructor <;>
    simp [managedSection, managedPrefetchSection, runKernelSection,
      memcpyAsync, memPrefetchAsync, launchVectorAdd, hi]

/-- Witness for C9 at index 9 with distinct initial buffer contents. -/
theorem C9_managed_equals_plain_witness :
    managedSection (fun _ => 3) 9 = runKernelSection (fun _ => 5) 9 ∧
    managedPrefetchSection (fun _ => 4) 9 = runKernelSection (fun _ => 5) 9 :=
  C9_managed_equals_plain (fun _ => 3) (fun _ => 4) (fun _ => 5) 9 (by decide)

end CudaWrappers
